import Mathlib

/-!
Shallow embedding of the zoxios validated-request-maker core
(`validated-request-maker.ts`, `error-handler.ts`) and proofs about it.

JavaScript values are modelled by the inductive `JsVal`; plain objects by
association lists (`JsObj`) where the *last* binding of a key wins, matching
the overwrite semantics of property assignment and object spread.  Object
identity of the mutable Request Description (needed to talk about in-place
mutation versus copying) is modelled by a `Store` of allocated objects
addressed by `Nat` references; `{ ... }` object-literal and spread expressions
allocate, property assignment updates the store in place.  Key enumeration
order of objects is not modelled (no claim depends on it).

Promises are collapsed: an `async` function that can throw becomes a function
into `Except JsError _`; the external collaborators (the axios transport and
the zod schema engine) are passed in as function parameters, exactly at their
boundary contracts.  External interactions are recorded in an event trace.
-/

namespace Zoxios

/-- A JavaScript runtime value, as far as the request maker manipulates them:
`undefined`, `null`, booleans, numbers, strings, arrays and plain objects. -/
inductive JsVal where
  | undefined
  | null
  | bool (b : Bool)
  | num (n : Int)
  | str (s : String)
  | arr (elems : List JsVal)
  | obj (fields : List (String × JsVal))

/-- A JavaScript plain object: a list of key/value bindings, the last binding
of a key being the one property access observes. -/
abbrev JsObj := List (String × JsVal)

/-- Property read `o[k]`: the last binding of `k`, if any. -/
def JsObj.get? : JsObj → String → Option JsVal
  | [], _ => none
  | (k', v) :: rest, k =>
    match JsObj.get? rest k with
    | some w => some w
    | none => if k' == k then some v else none

/-- Property read `o.k`, yielding `undefined` when the key is absent. -/
def JsObj.getD (o : JsObj) (k : String) : JsVal :=
  (o.get? k).getD .undefined

/-- Property assignment `o.k = v` (overwrites any previous binding of `k`). -/
def JsObj.set (o : JsObj) (k : String) (v : JsVal) : JsObj :=
  o.filter (fun kv => kv.1 != k) ++ [(k, v)]

/-- Object spread `{ ...a, ...b }`: every binding of `b` overwrites `a`. -/
def JsObj.merge (a b : JsObj) : JsObj :=
  b.foldl (fun acc kv => acc.set kv.1 kv.2) a

/-- String coercion of a value, as JavaScript string concatenation performs
it (`String(v)`). -/
def jsToString : JsVal → String
  | .undefined => "undefined"
  | .null => "null"
  | .bool b => if b then "true" else "false"
  | .num n => toString n
  | .str s => s
  | .arr _ => ""
  | .obj _ => "[object Object]"

/-- Minimal JSON string quoting (escapes backslash and double quote). -/
def jsonQuote (s : String) : String :=
  "\"" ++ ((s.replace "\\" "\\\\").replace "\"" "\\\"") ++ "\""

mutual

/-- Model of `JSON.stringify` over the modelled values; `none` models the JavaScript
`undefined` result for an `undefined` input. -/
def jsonStringify : JsVal → Option String
  | .undefined => none
  | .null => some "null"
  | .bool b => some (if b then "true" else "false")
  | .num n => some (toString n)
  | .str s => some (jsonQuote s)
  | .arr es => some ("[" ++ jsonStringifyElems es ++ "]")
  | .obj fs => some ("\x7b" ++ jsonStringifyFields fs ++ "\x7d")

/-- Array elements of `JSON.stringify` (an `undefined` element prints as
`null`). -/
def jsonStringifyElems : List JsVal → String
  | [] => ""
  | [e] => (jsonStringify e).getD "null"
  | e :: es => (jsonStringify e).getD "null" ++ "," ++ jsonStringifyElems es

/-- Object fields of `JSON.stringify` (a key bound to `undefined` is
omitted). -/
def jsonStringifyFields : List (String × JsVal) → String
  | [] => ""
  | (k, v) :: fs =>
    match jsonStringify v, jsonStringifyFields fs with
    | none, rest => rest
    | some sv, "" => jsonQuote k ++ ":" ++ sv
    | some sv, rest => jsonQuote k ++ ":" ++ sv ++ "," ++ rest

end

/-- Template interpolation of a `JSON.stringify` result (an `undefined`
result interpolates as the text `undefined`). -/
def jsonStringifyText (v : JsVal) : String :=
  (jsonStringify v).getD "undefined"

/-- The structured issue report a zod schema produces on failure
(`ZodError`): the request maker only ever reads its `issues` list, which it
treats as opaque values. -/
structure ZodError where
  issues : List JsVal

/-- Result of zod's `safeParse`: either the normalized/coerced output value
or a structured error; it never throws. -/
inductive SafeParseResult where
  | success (data : JsVal)
  | failure (error : ZodError)

/-- A zod schema, at the boundary the request maker uses: an opaque
`safeParse` capability. -/
structure ZodSchema where
  safeParse : JsVal → SafeParseResult

/-- Modelled from the spec: the metadata of `RequestValidationError`
(`errors.ts` is not among the sources; shape taken from §4.4 of the spec and
from the constructor calls in `validated-request-maker.ts`):
`{ requestOptions, request }` — the finalized options at failure time and the
specific rejected value (query or body). -/
structure RequestValidationErrorMetadata where
  requestOptions : JsObj
  request : JsVal

/-- Modelled from the spec: the `RequestValidationError` class (missing
`errors.ts`): carries the zod error and `{ requestOptions, request }`
metadata, exactly the two constructor arguments. -/
structure RequestValidationError where
  zodError : ZodError
  metadata : RequestValidationErrorMetadata

/-- Modelled from the spec: the metadata of `ResponseValidationError`:
`{ requestOptions, response }` — the finalized options and the raw rejected
response value. -/
structure ResponseValidationErrorMetadata where
  requestOptions : JsObj
  response : JsVal

/-- Modelled from the spec: the `ResponseValidationError` class (missing
`errors.ts`): carries the zod error and `{ requestOptions, response }`
metadata. -/
structure ResponseValidationError where
  zodError : ZodError
  metadata : ResponseValidationErrorMetadata

/-- A thrown JavaScript error, classified the way `exec`'s catch clause
classifies it by `instanceof`: one of the two validation-error classes, or
anything else (transport errors included), carried verbatim. -/
inductive JsError where
  | requestValidation (e : RequestValidationError)
  | responseValidation (e : ResponseValidationError)
  | other (e : JsVal)

/-- The slice of an axios response the request maker reads: its `data`. -/
structure AxiosResponse where
  data : JsVal

/-- The transport collaborator (`axios`): takes the request options and
either returns a response or throws. -/
abbrev Transport := JsObj → Except JsVal AxiosResponse

/-- The asynchronous option setter: a zero-argument operation resolving to a
partial options object. -/
abbrev AsyncOptionsSetterMethod := Unit → JsObj

/-- The heap slice holding the mutable request-description objects; an
object reference is an index into `objs`. -/
structure Store where
  objs : List JsObj

/-- Dereference an object. -/
def Store.get (s : Store) (r : Nat) : JsObj :=
  s.objs.getD r []

/-- In-place update of the object behind reference `r`. -/
def Store.set (s : Store) (r : Nat) (o : JsObj) : Store :=
  ⟨s.objs.set r o⟩

/-- Allocate a fresh object (an object literal or spread expression),
returning the new store and the fresh reference. -/
def Store.alloc (s : Store) (o : JsObj) : Store × Nat :=
  (⟨s.objs ++ [o]⟩, s.objs.length)

/-- An observable external interaction performed during one execution: the
async option setter being invoked, or the transport being called with the
finalized request options. -/
inductive Event where
  | asyncSetterInvoked
  | transportCalled (options : JsObj)

/-- Whether an event is a transport call. -/
def Event.isTransportCall : Event → Bool
  | .transportCalled _ => true
  | _ => false

/-- Whether an event is an invocation of the async option setter. -/
def Event.isAsyncSetterCall : Event → Bool
  | .asyncSetterInvoked => true
  | _ => false

/-- The `schemas` argument of `execRequest`:
`{ query?, body?, response? }`. -/
structure Schemas where
  query : Option ZodSchema
  body : Option ZodSchema
  response : Option ZodSchema

/-- Outcome of one execution: the store after it (request-description
mutations included), the trace of external interactions, the console-error
log lines, and the settled value of the returned promise. -/
structure ExecResult where
  store : Store
  events : List Event
  logs : List String
  result : Except JsError JsVal

/-- Function `validateRequestItem(baseOptions, requestItem, schema?)` of
`validated-request-maker.ts`: absent schema returns the item unchanged;
otherwise `safeParse`, throwing `RequestValidationError` with
`{ requestOptions: baseOptions, request: requestItem }` on failure, and
returning the parsed data on success. -/
def validateRequestItem (baseOptions : JsObj) (requestItem : JsVal)
    (schema : Option ZodSchema) : Except JsError JsVal :=
  match schema with
  | none => .ok requestItem
  | some s =>
    match s.safeParse requestItem with
    | .failure e => .error (.requestValidation ⟨e, ⟨baseOptions, requestItem⟩⟩)
    | .success d => .ok d

/-- Function `handleValidatedResponse(baseOptions, response, schema?)`: absent schema
returns the response unchanged; otherwise `safeParse`, throwing
`ResponseValidationError` with `{ response, requestOptions: baseOptions }` on
failure, and returning the parsed data on success. -/
def handleValidatedResponse (baseOptions : JsObj) (response : JsVal)
    (schema : Option ZodSchema) : Except JsError JsVal :=
  match schema with
  | none => .ok response
  | some s =>
    match s.safeParse response with
    | .failure e => .error (.responseValidation ⟨e, ⟨baseOptions, response⟩⟩)
    | .success d => .ok d

/-- Function `execRequest(baseOptions, asyncOptionsSetterMethod?, schemas?)`:
resolves the async options (`{}` when no setter), allocates the merged
`requestOptions = { ...baseOptions, ...asyncOptions }`, replaces its
`params` and then its `data` with their validated values (each validation
receiving the `requestOptions` object in its current state), calls the
transport with `requestOptions`, and validates the response `data`.  Any
throw aborts the remaining steps. -/
def execRequest (store : Store) (baseOptionsRef : Nat)
    (asyncOptionsSetterMethod : Option AsyncOptionsSetterMethod)
    (schemas : Schemas) (transport : Transport) : ExecResult :=
  let asyncEvents : List Event :=
    match asyncOptionsSetterMethod with
    | some _ => [.asyncSetterInvoked]
    | none => []
  let asyncOptions : JsObj :=
    match asyncOptionsSetterMethod with
    | some f => f ()
    | none => []
  let (store1, reqRef) := store.alloc ((store.get baseOptionsRef).merge asyncOptions)
  match validateRequestItem (store1.get reqRef) ((store1.get reqRef).getD "params")
      schemas.query with
  | .error e => ⟨store1, asyncEvents, [], .error e⟩
  | .ok params =>
    let store2 := store1.set reqRef ((store1.get reqRef).set "params" params)
    match validateRequestItem (store2.get reqRef) ((store2.get reqRef).getD "data")
        schemas.body with
    | .error e => ⟨store2, asyncEvents, [], .error e⟩
    | .ok data =>
      let store3 := store2.set reqRef ((store2.get reqRef).set "data" data)
      let requestOptions := store3.get reqRef
      let events := asyncEvents ++ [.transportCalled requestOptions]
      match transport requestOptions with
      | .error err => ⟨store3, events, [], .error (.other err)⟩
      | .ok response =>
        ⟨store3, events, [],
          handleValidatedResponse requestOptions response.data schemas.response⟩

/-- The union `RequestValidationError | ResponseValidationError` that
`defaultHandleValidationError` accepts. -/
inductive ValidationError where
  | request (e : RequestValidationError)
  | response (e : ResponseValidationError)

/-- Modelled from the spec: the `name` each error class (missing `errors.ts`)
reports — the class name, the two kinds being distinguishable. -/
def ValidationError.name : ValidationError → String
  | .request _ => "RequestValidationError"
  | .response _ => "ResponseValidationError"

/-- Modelled from the spec: the error classes carry a human-readable
`message`; its exact text is not specified anywhere in the sources, so it is
modelled as empty. -/
def ValidationError.message : ValidationError → String :=
  fun _ => ""

/-- The `zodError` property of either validation error. -/
def ValidationError.zodError : ValidationError → ZodError
  | .request e => e.zodError
  | .response e => e.zodError

/-- The `metadata.requestOptions` property of either validation error. -/
def ValidationError.requestOptions : ValidationError → JsObj
  | .request e => e.metadata.requestOptions
  | .response e => e.metadata.requestOptions

/-- Re-embed a validation error into the thrown-error classification. -/
def ValidationError.toJsError : ValidationError → JsError
  | .request e => .requestValidation e
  | .response e => .responseValidation e

/-- The template literal `defaultHandleValidationError` passes to
`console.error`. -/
def validationErrorDiagnostic (error : ValidationError) : String :=
  let requestOptions := error.requestOptions
  "zoxios - [" ++ error.name ++ "] - " ++ error.message ++ "\n" ++
  "    timeout: " ++ jsToString (requestOptions.getD "timeout") ++ "\n" ++
  "    method: " ++ jsToString (requestOptions.getD "method") ++ "\n" ++
  "    url: " ++ jsToString (requestOptions.getD "url") ++ "\n\n" ++
  "    body:\n    " ++ jsonStringifyText (requestOptions.getD "data") ++ "\n\n" ++
  "    query params:\n    " ++ jsonStringifyText (requestOptions.getD "params") ++
  "\n\n" ++
  "    issues:\n    " ++ jsonStringifyText (.arr error.zodError.issues)

/-- What a validation-error handler produces: console-error log lines, and
either a returned fallback value (`.ok`) or a (re-)raised error (`.error`). -/
abbrev HandlerResult := List String × Except JsError JsVal

/-- A configured request-validation handler. -/
abbrev RequestValidationHandler := RequestValidationError → HandlerResult

/-- A configured response-validation handler. -/
abbrev ResponseValidationHandler := ResponseValidationError → HandlerResult

/-- Function `defaultHandleValidationError` of `error-handler.ts`: `console.error` a
formatted diagnostic, then `throw error` — re-raise the original error. -/
def defaultHandleValidationError (error : ValidationError) : HandlerResult :=
  ([validationErrorDiagnostic error], .error error.toJsError)

/-- Function `defaultRequestValidationHandler`: delegates to
`defaultHandleValidationError`. -/
def defaultRequestValidationHandler : RequestValidationHandler :=
  fun error => defaultHandleValidationError (.request error)

/-- Function `defaultResponseValidationHandler`: delegates to
`defaultHandleValidationError`. -/
def defaultResponseValidationHandler : ResponseValidationHandler :=
  fun error => defaultHandleValidationError (.response error)

/-- The state captured by one `validatedRequestMaker` closure: the reference
to the mutable `baseOptions` object (inside `store`), the optional async
option setter, the three optional schema slots, and the two validation-error
handlers. -/
structure ValidatedRequestMaker where
  store : Store
  baseOptionsRef : Nat
  asyncOptionsSetterMethod : Option AsyncOptionsSetterMethod
  querySchema : Option ZodSchema
  bodySchema : Option ZodSchema
  responseSchema : Option ZodSchema
  requestValidationErrorHandler : RequestValidationHandler
  responseValidationErrorHandler : ResponseValidationHandler

/-- Function `validatedRequestMaker(host)`: allocates
`baseOptions = { url: host }`, leaves the setter and schema slots unset, and
installs the two default validation-error handlers. -/
def validatedRequestMaker (host : String) : ValidatedRequestMaker where
  store := ⟨[[("url", .str host)]]⟩
  baseOptionsRef := 0
  asyncOptionsSetterMethod := none
  querySchema := none
  bodySchema := none
  responseSchema := none
  requestValidationErrorHandler := defaultRequestValidationHandler
  responseValidationErrorHandler := defaultResponseValidationHandler

/-- The current contents of the maker's `baseOptions` object. -/
def ValidatedRequestMaker.baseOptions (m : ValidatedRequestMaker) : JsObj :=
  m.store.get m.baseOptionsRef

/-- Chain call `options(options)`:
`baseOptions = { ...baseOptions, ...options }` — allocates the fresh spread
object and rebinds the closure variable to it. -/
def ValidatedRequestMaker.options (m : ValidatedRequestMaker) (options : JsObj) :
    ValidatedRequestMaker :=
  let allocated := m.store.alloc (m.baseOptions.merge options)
  { m with store := allocated.1, baseOptionsRef := allocated.2 }

/-- Chain call `concatPath(path)`: in-place update
`baseOptions.url += '/' + path`. -/
def ValidatedRequestMaker.concatPath (m : ValidatedRequestMaker) (path : String) :
    ValidatedRequestMaker :=
  { m with
    store := m.store.set m.baseOptionsRef
      (m.baseOptions.set "url"
        (.str (jsToString (m.baseOptions.getD "url") ++ "/" ++ path))) }

/-- Chain call `method(method)`: in-place update `baseOptions.method`. -/
def ValidatedRequestMaker.method (m : ValidatedRequestMaker) (method : String) :
    ValidatedRequestMaker :=
  { m with
    store := m.store.set m.baseOptionsRef (m.baseOptions.set "method" (.str method)) }

/-- Chain call `query(query)`: in-place update `baseOptions.params`. -/
def ValidatedRequestMaker.query (m : ValidatedRequestMaker) (query : JsVal) :
    ValidatedRequestMaker :=
  { m with
    store := m.store.set m.baseOptionsRef (m.baseOptions.set "params" query) }

/-- Chain call `body(body)`: in-place update `baseOptions.data`. -/
def ValidatedRequestMaker.body (m : ValidatedRequestMaker) (body : JsVal) :
    ValidatedRequestMaker :=
  { m with
    store := m.store.set m.baseOptionsRef (m.baseOptions.set "data" body) }

/-- Chain call `asyncOptionsSetter(optionsSetter)`: replaces the setter
slot. -/
def ValidatedRequestMaker.asyncOptionsSetter (m : ValidatedRequestMaker)
    (optionsSetter : AsyncOptionsSetterMethod) : ValidatedRequestMaker :=
  { m with asyncOptionsSetterMethod := some optionsSetter }

/-- The `execRequest(baseOptions, asyncOptionsSetterMethod, { body, query,
response })` call inside `exec`. -/
def ValidatedRequestMaker.execInner (m : ValidatedRequestMaker)
    (transport : Transport) : ExecResult :=
  execRequest m.store m.baseOptionsRef m.asyncOptionsSetterMethod
    ⟨m.querySchema, m.bodySchema, m.responseSchema⟩ transport

/-- Chain-terminal `exec()`: runs `execRequest` and catches — a
`RequestValidationError` goes to the configured request-validation handler, a
`ResponseValidationError` to the configured response-validation handler, and
any other outcome (success or any other error) passes through unchanged. -/
def ValidatedRequestMaker.exec (m : ValidatedRequestMaker)
    (transport : Transport) : ExecResult :=
  let r := m.execInner transport
  match r.result with
  | .error (.requestValidation e) =>
    let handled := m.requestValidationErrorHandler e
    { r with logs := r.logs ++ handled.1, result := handled.2 }
  | .error (.responseValidation e) =>
    let handled := m.responseValidationErrorHandler e
    { r with logs := r.logs ++ handled.1, result := handled.2 }
  | _ => r

/-! ### Basic facts about the object model -/

/-- Reading the object just allocated at the end of the store. -/
theorem Store.get_concat (objs : List JsObj) (o : JsObj) :
    Store.get ⟨objs ++ [o]⟩ objs.length = o := by
  simp [Store.get, List.getD_eq_getElem?_getD, List.getElem?_concat_length]

/-- Overwriting the object just allocated at the end of the store. -/
theorem Store.set_concat (objs : List JsObj) (o o' : JsObj) :
    Store.set ⟨objs ++ [o]⟩ objs.length o' = ⟨objs ++ [o']⟩ := by
  show Store.mk ((objs ++ [o]).set objs.length o') = _
  induction objs with
  | nil => rfl
  | cons x xs ih => exact congrArg (fun s => Store.mk (x :: s.objs)) ih

/-- Objects below the allocation frontier are unaffected by an
allocation. -/
theorem Store.get_concat_of_lt (objs : List JsObj) (o : JsObj) {r : Nat}
    (h : r < objs.length) : Store.get ⟨objs ++ [o]⟩ r = Store.get ⟨objs⟩ r := by
  simp [Store.get, List.getD_eq_getElem?_getD, List.getElem?_append_left h]

/-- Property read after property assignment of the same key. -/
theorem JsObj.get?_append (a b : JsObj) (k : String) :
    JsObj.get? (a ++ b) k =
      match b.get? k with
      | some v => some v
      | none => a.get? k := by
  induction a with
  | nil => cases h : b.get? k <;> simp [JsObj.get?, h]
  | cons kv rest ih =>
    cases h : b.get? k <;> simp only [h] at ih <;>
      simp [JsObj.get?, ih, h]

/-- Filtering out a key other than `k` does not change the value read at
`k`. -/
theorem JsObj.get?_filter_ne (o : JsObj) {k k' : String} (h : k ≠ k') :
    JsObj.get? (o.filter (fun kv => kv.1 != k')) k = o.get? k := by
  induction o with
  | nil => rfl
  | cons kv rest ih =>
    by_cases hk : kv.1 = k'
    · have hkeep : (kv.1 != k') = false := by simp [hk]
      have hne : (kv.1 == k) = false := by
        simp [hk]
        exact fun hkk => h hkk.symm
      cases hr : JsObj.get? rest k <;>
        simp_all [JsObj.get?, List.filter_cons, hkeep, hne]
    · have hkeep : (kv.1 != k') = true := by simp [hk]
      cases hr : JsObj.get? rest k <;>
        simp_all [JsObj.get?, List.filter_cons, hkeep]

/-- Reading the key just assigned yields the assigned value. -/
theorem JsObj.get?_set_self (o : JsObj) (k : String) (v : JsVal) :
    (o.set k v).get? k = some v := by
  simp [JsObj.set, JsObj.get?_append, JsObj.get?]

/-- Assignment leaves every other key unchanged. -/
theorem JsObj.get?_set_ne (o : JsObj) {k k' : String} (v : JsVal) (h : k ≠ k') :
    (o.set k' v).get? k = o.get? k := by
  have hne : (k' == k) = false := by
    simp
    exact fun hkk => h hkk.symm
  simp [JsObj.set, JsObj.get?_append, JsObj.get?, hne, JsObj.get?_filter_ne o h]

/-- Spread-merge semantics on a single key: the right operand wins wherever
it defines the key, the left operand shows through elsewhere. -/
theorem JsObj.get?_merge (a b : JsObj) (k : String) :
    (a.merge b).get? k =
      match b.get? k with
      | some v => some v
      | none => a.get? k := by
  induction b generalizing a with
  | nil => rfl
  | cons kv rest ih =>
    show ((a.set kv.1 kv.2).merge rest).get? k = _
    rw [ih]
    by_cases hk : kv.1 = k
    · cases h : JsObj.get? rest k <;>
        simp [JsObj.get?, h, hk, JsObj.get?_set_self]
    · have hne : (kv.1 == k) = false := by simpa using hk
      cases h : JsObj.get? rest k <;>
        simp [JsObj.get?, h, hne, JsObj.get?_set_ne a kv.2 (fun hkk => hk hkk.symm)]

/-- The `getD` version of `JsObj.get?_set_self`. -/
theorem JsObj.getD_set_self (o : JsObj) (k : String) (v : JsVal) :
    (o.set k v).getD k = v := by
  simp [JsObj.getD, JsObj.get?_set_self]

/-- The `getD` version of `JsObj.get?_set_ne`. -/
theorem JsObj.getD_set_ne (o : JsObj) {k k' : String} (v : JsVal) (h : k ≠ k') :
    (o.set k' v).getD k = o.getD k := by
  simp [JsObj.getD, JsObj.get?_set_ne o v h]

/-! ### Path characterization of `execRequest`

The three lemmas below resolve the store bookkeeping of `execRequest` once
and for all: each describes the full outcome of one class of execution paths
(query validation fails; query passes and body fails; both pass), in terms
of the merged options object
`fo = { ...baseOptions, ...asyncOptions }` alone. -/

/-- The async options `execRequest` resolves in its first step. -/
def asyncOptionsOf : Option AsyncOptionsSetterMethod → JsObj
  | some f => f ()
  | none => []

/-- The trace contribution of resolving the async options. -/
def asyncEventsOf : Option AsyncOptionsSetterMethod → List Event
  | some _ => [Event.asyncSetterInvoked]
  | none => []

/-- Path: the query validation throws.  The thrown error is returned as is,
no transport event is recorded, and the store holds the merged object
untouched beyond allocation. -/
theorem execRequest_of_query_error (store : Store) (ref : Nat)
    (setter : Option AsyncOptionsSetterMethod) (schemas : Schemas)
    (transport : Transport) (e : JsError)
    (h : validateRequestItem ((store.get ref).merge (asyncOptionsOf setter))
      (((store.get ref).merge (asyncOptionsOf setter)).getD "params")
      schemas.query = .error e) :
    execRequest store ref setter schemas transport =
      ⟨⟨store.objs ++ [(store.get ref).merge (asyncOptionsOf setter)]⟩,
        asyncEventsOf setter, [], .error e⟩ := by
  cases setter <;>
    simp only [asyncOptionsOf] at h <;>
    simp [execRequest, Store.alloc, Store.get_concat, Store.set_concat, h,
      asyncEventsOf, asyncOptionsOf]

/-- Path: the query validation succeeds (producing `params`) and the body
validation throws.  The merged object has already received the validated
`params` when the body error is raised, and no transport event is
recorded. -/
theorem execRequest_of_body_error (store : Store) (ref : Nat)
    (setter : Option AsyncOptionsSetterMethod) (schemas : Schemas)
    (transport : Transport) (params : JsVal) (e : JsError)
    (hq : validateRequestItem ((store.get ref).merge (asyncOptionsOf setter))
      (((store.get ref).merge (asyncOptionsOf setter)).getD "params")
      schemas.query = .ok params)
    (hb : validateRequestItem
      (((store.get ref).merge (asyncOptionsOf setter)).set "params" params)
      ((((store.get ref).merge (asyncOptionsOf setter)).set "params" params).getD "data")
      schemas.body = .error e) :
    execRequest store ref setter schemas transport =
      ⟨⟨store.objs ++
          [((store.get ref).merge (asyncOptionsOf setter)).set "params" params]⟩,
        asyncEventsOf setter, [], .error e⟩ := by
  cases setter <;>
    simp only [asyncOptionsOf] at hq hb <;>
    simp [execRequest, Store.alloc, Store.get_concat, Store.set_concat, hq, hb,
      asyncEventsOf, asyncOptionsOf]

/-- Path: both request validations succeed.  The transport is called exactly
once, with the merged object carrying the validated `params` and `data`, and
the outcome is the transport error or the validated response. -/
theorem execRequest_of_request_ok (store : Store) (ref : Nat)
    (setter : Option AsyncOptionsSetterMethod) (schemas : Schemas)
    (transport : Transport) (params data : JsVal)
    (hq : validateRequestItem ((store.get ref).merge (asyncOptionsOf setter))
      (((store.get ref).merge (asyncOptionsOf setter)).getD "params")
      schemas.query = .ok params)
    (hb : validateRequestItem
      (((store.get ref).merge (asyncOptionsOf setter)).set "params" params)
      ((((store.get ref).merge (asyncOptionsOf setter)).set "params" params).getD "data")
      schemas.body = .ok data) :
    execRequest store ref setter schemas transport =
      ⟨⟨store.objs ++
          [(((store.get ref).merge (asyncOptionsOf setter)).set "params" params).set
              "data" data]⟩,
        asyncEventsOf setter ++
          [.transportCalled
            ((((store.get ref).merge (asyncOptionsOf setter)).set "params" params).set
              "data" data)], [],
        match transport
            ((((store.get ref).merge (asyncOptionsOf setter)).set "params" params).set
              "data" data) with
        | .error err => .error (.other err)
        | .ok response =>
          handleValidatedResponse
            ((((store.get ref).merge (asyncOptionsOf setter)).set "params" params).set
              "data" data)
            response.data schemas.response⟩ := by
  cases setter <;>
    simp only [asyncOptionsOf] at hq hb <;>
    simp [execRequest, Store.alloc, Store.get_concat, Store.set_concat, hq, hb,
      asyncEventsOf, asyncOptionsOf] <;>
    split <;> simp_all

/-- Reading back an in-place update, for an in-range reference. -/
theorem Store.get_set_self (s : Store) (r : Nat) (o : JsObj)
    (h : r < s.objs.length) : (s.set r o).get r = o := by
  simp [Store.set, Store.get, List.getD_eq_getElem?_getD,
    List.getElem?_set_self', h]

/-- A maker state is well formed when its `baseOptions` reference points
into the store; every state reachable from `validatedRequestMaker` is. -/
def ValidatedRequestMaker.WF (m : ValidatedRequestMaker) : Prop :=
  m.baseOptionsRef < m.store.objs.length

instance (m : ValidatedRequestMaker) : Decidable m.WF :=
  Nat.decLt _ _

/-- The `exec` wrapper only reroutes the settled result through the handlers: the trace
of external interactions is the one `execRequest` produced. -/
theorem exec_events (m : ValidatedRequestMaker) (transport : Transport) :
    (m.exec transport).events = (m.execInner transport).events := by
  cases h : (m.execInner transport).result with
  | ok v => simp [ValidatedRequestMaker.exec, h]
  | error e => cases e <;> simp [ValidatedRequestMaker.exec, h]

/-- The `exec` wrapper leaves the store exactly as `execRequest` left it. -/
theorem exec_store (m : ValidatedRequestMaker) (transport : Transport) :
    (m.exec transport).store = (m.execInner transport).store := by
  cases h : (m.execInner transport).result with
  | ok v => simp [ValidatedRequestMaker.exec, h]
  | error e => cases e <;> simp [ValidatedRequestMaker.exec, h]

end Zoxios

namespace Zoxios

/-! ### Effect of the chain calls on the Request Description -/

/-- Call `concatPath` updates the description in place: the object behind the
(unchanged) reference now holds the extended url. -/
theorem concatPath_baseOptions (m : ValidatedRequestMaker) (seg : String)
    (h : m.WF) :
    (m.concatPath seg).baseOptions =
      m.baseOptions.set "url"
        (.str (jsToString (m.baseOptions.getD "url") ++ "/" ++ seg)) :=
  Store.get_set_self m.store m.baseOptionsRef _ h

/-- Call `method` updates the description in place. -/
theorem method_baseOptions (m : ValidatedRequestMaker) (v : String)
    (h : m.WF) :
    (m.method v).baseOptions = m.baseOptions.set "method" (.str v) :=
  Store.get_set_self m.store m.baseOptionsRef _ h

/-- Call `query` updates the description in place. -/
theorem query_baseOptions (m : ValidatedRequestMaker) (q : JsVal)
    (h : m.WF) :
    (m.query q).baseOptions = m.baseOptions.set "params" q :=
  Store.get_set_self m.store m.baseOptionsRef _ h

/-- Call `body` updates the description in place. -/
theorem body_baseOptions (m : ValidatedRequestMaker) (b : JsVal)
    (h : m.WF) :
    (m.body b).baseOptions = m.baseOptions.set "data" b :=
  Store.get_set_self m.store m.baseOptionsRef _ h

/-- Call `options` rebinds the description to the fresh shallow merge. -/
theorem options_baseOptions (m : ValidatedRequestMaker) (o : JsObj) :
    (m.options o).baseOptions = m.baseOptions.merge o :=
  Store.get_concat m.store.objs _

/-- The in-place chain calls preserve well-formedness. -/
theorem concatPath_WF (m : ValidatedRequestMaker) (seg : String) (h : m.WF) :
    (m.concatPath seg).WF := by
  simpa [ValidatedRequestMaker.WF, ValidatedRequestMaker.concatPath, Store.set]
    using h

/-- Call `method` preserves well-formedness. -/
theorem method_WF (m : ValidatedRequestMaker) (v : String) (h : m.WF) :
    (m.method v).WF := by
  simpa [ValidatedRequestMaker.WF, ValidatedRequestMaker.method, Store.set]
    using h

/-- Call `query` preserves well-formedness. -/
theorem query_WF (m : ValidatedRequestMaker) (q : JsVal) (h : m.WF) :
    (m.query q).WF := by
  simpa [ValidatedRequestMaker.WF, ValidatedRequestMaker.query, Store.set]
    using h

/-- Call `body` preserves well-formedness. -/
theorem body_WF (m : ValidatedRequestMaker) (b : JsVal) (h : m.WF) :
    (m.body b).WF := by
  simpa [ValidatedRequestMaker.WF, ValidatedRequestMaker.body, Store.set]
    using h

/-- Call `options` establishes well-formedness outright (the description now
points at the just-allocated object). -/
theorem options_WF (m : ValidatedRequestMaker) (o : JsObj) :
    (m.options o).WF := by
  simp [ValidatedRequestMaker.WF, ValidatedRequestMaker.options, Store.alloc]

/-- C7: for every context and value, an absent schema slot makes request-item
validation return the value itself, and likewise response validation with an
absent response schema — identity, no error raised, no normalization. -/
theorem validate_without_schema_is_identity (ctx : JsObj) (v : JsVal) :
    validateRequestItem ctx v none = .ok v ∧
      handleValidatedResponse ctx v none = .ok v :=
  ⟨rfl, rfl⟩

/-- C3 counterexample: the `options` chain call does not mutate the Request
Description in place — it rebinds `baseOptions` to a freshly allocated
spread copy, so the object reference changes across that call. -/
theorem options_call_copies_description :
    ¬ ((validatedRequestMaker "http://h").options []).baseOptionsRef
        = (validatedRequestMaker "http://h").baseOptionsRef := by
  decide

end Zoxios

namespace Zoxios

/-- C3 (amended): all chained configuration calls observe and update the one
accumulated Request Description held by the builder, and call order composes
— later calls override earlier ones for overlapping keys, while path
segments append.  `concatPath`, `method`, `query` and `body` mutate the
Description object in place (the reference is unchanged); `options`, by
contrast, replaces it with a freshly allocated shallow-merged copy of the
previous contents. -/
theorem chain_calls_share_and_compose :
    (∀ (m : ValidatedRequestMaker) (seg : String),
      (m.concatPath seg).baseOptionsRef = m.baseOptionsRef)
    ∧ (∀ (m : ValidatedRequestMaker) (v : String),
      (m.method v).baseOptionsRef = m.baseOptionsRef)
    ∧ (∀ (m : ValidatedRequestMaker) (q : JsVal),
      (m.query q).baseOptionsRef = m.baseOptionsRef)
    ∧ (∀ (m : ValidatedRequestMaker) (b : JsVal),
      (m.body b).baseOptionsRef = m.baseOptionsRef)
    ∧ (∀ (m : ValidatedRequestMaker) (o : JsObj),
      (m.options o).baseOptionsRef = m.store.objs.length
        ∧ (m.options o).baseOptions = m.baseOptions.merge o)
    ∧ (∀ (m : ValidatedRequestMaker) (a b : String), m.WF →
      ((m.method a).method b).baseOptions.getD "method" = .str b)
    ∧ (∀ (m : ValidatedRequestMaker) (q1 q2 : JsVal), m.WF →
      ((m.query q1).query q2).baseOptions.getD "params" = q2)
    ∧ (∀ (m : ValidatedRequestMaker) (b1 b2 : JsVal), m.WF →
      ((m.body b1).body b2).baseOptions.getD "data" = b2)
    ∧ (∀ (m : ValidatedRequestMaker) (o1 o2 : JsObj) (k : String) (v : JsVal),
      o2.get? k = some v →
        ((m.options o1).options o2).baseOptions.get? k = some v)
    ∧ (∀ (m : ValidatedRequestMaker) (a b : String), m.WF →
      ((m.concatPath a).concatPath b).baseOptions.getD "url"
        = .str (jsToString (m.baseOptions.getD "url") ++ "/" ++ a ++ "/" ++ b)) := by
  refine ⟨fun m seg => rfl, fun m v => rfl, fun m q => rfl, fun m b => rfl,
    fun m o => ⟨rfl, options_baseOptions m o⟩, ?_, ?_, ?_, ?_, ?_⟩
  · intro m a b h
    rw [method_baseOptions _ _ (method_WF m a h), method_baseOptions _ _ h,
      JsObj.getD_set_self]
  · intro m q1 q2 h
    rw [query_baseOptions _ _ (query_WF m q1 h), query_baseOptions _ _ h,
      JsObj.getD_set_self]
  · intro m b1 b2 h
    rw [body_baseOptions _ _ (body_WF m b1 h), body_baseOptions _ _ h,
      JsObj.getD_set_self]
  · intro m o1 o2 k v hv
    rw [options_baseOptions, options_baseOptions, JsObj.get?_merge]
    simp [hv]
  · intro m a b h
    rw [concatPath_baseOptions _ _ (concatPath_WF m a h),
      concatPath_baseOptions _ _ h, JsObj.getD_set_self, JsObj.getD_set_self]
    simp [jsToString, String.append_assoc]

/-- Witness for the amended C3 theorem at concrete inputs. -/
theorem chain_calls_share_and_compose_witness :
    (((validatedRequestMaker "h").method "GET").method "POST").baseOptions.getD
        "method" = .str "POST"
    ∧ (((validatedRequestMaker "h").query (.num 1)).query
        (.num 2)).baseOptions.getD "params" = .num 2
    ∧ (((validatedRequestMaker "h").body (.num 3)).body
        (.num 4)).baseOptions.getD "data" = .num 4
    ∧ (((validatedRequestMaker "h").options [("timeout", .num 1)]).options
        [("timeout", .num 2)]).baseOptions.get? "timeout" = some (.num 2)
    ∧ (((validatedRequestMaker "h").concatPath "a").concatPath
        "b").baseOptions.getD "url" = .str "h/a/b" :=
  ⟨chain_calls_share_and_compose.2.2.2.2.2.1 (validatedRequestMaker "h")
      "GET" "POST" (by decide),
    chain_calls_share_and_compose.2.2.2.2.2.2.1 (validatedRequestMaker "h")
      (.num 1) (.num 2) (by decide),
    chain_calls_share_and_compose.2.2.2.2.2.2.2.1 (validatedRequestMaker "h")
      (.num 3) (.num 4) (by decide),
    chain_calls_share_and_compose.2.2.2.2.2.2.2.2.1 (validatedRequestMaker "h")
      [("timeout", .num 1)] [("timeout", .num 2)] "timeout" (.num 2) rfl,
    chain_calls_share_and_compose.2.2.2.2.2.2.2.2.2 (validatedRequestMaker "h")
      "a" "b" (by decide)⟩

end Zoxios

namespace Zoxios

/-- C9: the Request Description's url starts as the host passed at creation,
and each `concatPath(segment)` call appends the literal `/` followed by the
segment, with no escaping or normalization; in particular the maker for
`http://h` with paths `a` then `b` hands the transport the request url
`http://h/a/b`. -/
theorem concatPath_appends_to_url :
    (∀ host : String,
      (validatedRequestMaker host).baseOptions.getD "url" = .str host)
    ∧ (∀ (m : ValidatedRequestMaker) (seg : String), m.WF →
      (m.concatPath seg).baseOptions.getD "url"
        = .str (jsToString (m.baseOptions.getD "url") ++ "/" ++ seg))
    ∧ (∀ transport : Transport,
      ((((validatedRequestMaker "http://h").concatPath "a").concatPath
            "b").exec transport).events
        = [.transportCalled
            [("url", .str "http://h/a/b"), ("params", .undefined),
              ("data", .undefined)]]) := by
  refine ⟨fun host => rfl, ?_, ?_⟩
  · intro m seg h
    rw [concatPath_baseOptions _ _ h, JsObj.getD_set_self]
  · intro transport
    rw [exec_events]
    show (execRequest ⟨[[("url", .str "http://h/a/b")]]⟩ 0 none
      ⟨none, none, none⟩ transport).events = _
    rw [execRequest_of_request_ok ⟨[[("url", .str "http://h/a/b")]]⟩ 0 none
      ⟨none, none, none⟩ transport (.undefined) (.undefined) rfl rfl]
    rfl

/-- Witness for the C9 theorem at a concrete maker. -/
theorem concatPath_appends_to_url_witness :
    ((validatedRequestMaker "http://x").concatPath "p").baseOptions.getD "url"
      = .str "http://x/p" :=
  concatPath_appends_to_url.2.1 (validatedRequestMaker "http://x") "p"
    (by decide)

end Zoxios

namespace Zoxios

/-! ### Dispatch behavior of `exec` -/

/-- A `RequestValidationError` outcome is routed to the request-validation
handler: `exec` settles with the handler's outcome and appends its log
lines. -/
theorem exec_of_requestValidation (m : ValidatedRequestMaker)
    (transport : Transport) (e : RequestValidationError)
    (h : (m.execInner transport).result = .error (.requestValidation e)) :
    (m.exec transport).result = (m.requestValidationErrorHandler e).2
    ∧ (m.exec transport).logs =
        (m.execInner transport).logs ++ (m.requestValidationErrorHandler e).1 := by
  constructor <;> simp [ValidatedRequestMaker.exec, h]

/-- A `ResponseValidationError` outcome is routed to the response-validation
handler. -/
theorem exec_of_responseValidation (m : ValidatedRequestMaker)
    (transport : Transport) (e : ResponseValidationError)
    (h : (m.execInner transport).result = .error (.responseValidation e)) :
    (m.exec transport).result = (m.responseValidationErrorHandler e).2
    ∧ (m.exec transport).logs =
        (m.execInner transport).logs ++ (m.responseValidationErrorHandler e).1 := by
  constructor <;> simp [ValidatedRequestMaker.exec, h]

/-- Any other error passes through `exec` unchanged. -/
theorem exec_of_other (m : ValidatedRequestMaker) (transport : Transport)
    (v : JsVal) (h : (m.execInner transport).result = .error (.other v)) :
    (m.exec transport).result = .error (.other v) := by
  simp [ValidatedRequestMaker.exec, h]

/-- A successful outcome passes through `exec` unchanged. -/
theorem exec_of_ok (m : ValidatedRequestMaker) (transport : Transport)
    (v : JsVal) (h : (m.execInner transport).result = .ok v) :
    (m.exec transport).result = .ok v := by
  simp [ValidatedRequestMaker.exec, h]

/-- C2: `exec` catches exactly the two validation-error kinds — a
`RequestValidationError` goes to the configured request-validation handler
and a `ResponseValidationError` to the configured response-validation
handler, `exec` settling with whatever that handler produces — while every
other outcome, success or any other error (transport errors included),
passes through unchanged; and the default handler of either kind logs one
diagnostic line and re-raises the original error. -/
theorem exec_dispatches_validation_errors :
    (∀ (m : ValidatedRequestMaker) (transport : Transport)
      (e : RequestValidationError),
      (m.execInner transport).result = .error (.requestValidation e) →
        (m.exec transport).result = (m.requestValidationErrorHandler e).2
        ∧ (m.exec transport).logs =
            (m.execInner transport).logs ++ (m.requestValidationErrorHandler e).1)
    ∧ (∀ (m : ValidatedRequestMaker) (transport : Transport)
      (e : ResponseValidationError),
      (m.execInner transport).result = .error (.responseValidation e) →
        (m.exec transport).result = (m.responseValidationErrorHandler e).2
        ∧ (m.exec transport).logs =
            (m.execInner transport).logs ++ (m.responseValidationErrorHandler e).1)
    ∧ (∀ (m : ValidatedRequestMaker) (transport : Transport) (v : JsVal),
      (m.execInner transport).result = .error (.other v) →
        (m.exec transport).result = .error (.other v))
    ∧ (∀ (m : ValidatedRequestMaker) (transport : Transport) (v : JsVal),
      (m.execInner transport).result = .ok v →
        (m.exec transport).result = .ok v)
    ∧ (∀ e : RequestValidationError,
      defaultRequestValidationHandler e =
        ([validationErrorDiagnostic (.request e)], .error (.requestValidation e)))
    ∧ (∀ e : ResponseValidationError,
      defaultResponseValidationHandler e =
        ([validationErrorDiagnostic (.response e)],
          .error (.responseValidation e))) :=
  ⟨exec_of_requestValidation, exec_of_responseValidation, exec_of_other,
    exec_of_ok, fun _ => rfl, fun _ => rfl⟩

end Zoxios

namespace Zoxios

/-! ### Concrete collaborator instances used by the witnesses -/

/-- A schema that rejects every value with a fixed issue list. -/
def rejectSchema : ZodSchema :=
  ⟨fun _ => .failure ⟨[.str "invalid"]⟩⟩

/-- A schema behaving like `z.object({ age: z.number() })`: accepts objects
whose `age` is a number, normalizing to exactly that key (extra keys are
stripped); rejects anything else. -/
def ageNumberSchema : ZodSchema :=
  ⟨fun v =>
    match v with
    | .obj fields =>
      match JsObj.get? fields "age" with
      | some (.num n) => .success (.obj [("age", .num n)])
      | _ => .failure ⟨[.str "Expected number at age"]⟩
    | _ => .failure ⟨[.str "Expected object"]⟩⟩

/-- A schema behaving like `z.object({ id: z.number() })`, with the same
key-stripping normalization. -/
def idNumberSchema : ZodSchema :=
  ⟨fun v =>
    match v with
    | .obj fields =>
      match JsObj.get? fields "id" with
      | some (.num n) => .success (.obj [("id", .num n)])
      | _ => .failure ⟨[.str "Expected number at id"]⟩
    | _ => .failure ⟨[.str "Expected object"]⟩⟩

/-- A schema behaving like `z.object({ q: z.number() })`, with the same
key-stripping normalization (its output differs from a wider input). -/
def qNumberSchema : ZodSchema :=
  ⟨fun v =>
    match v with
    | .obj fields =>
      match JsObj.get? fields "q" with
      | some (.num n) => .success (.obj [("q", .num n)])
      | _ => .failure ⟨[.str "Expected number at q"]⟩
    | _ => .failure ⟨[.str "Expected object"]⟩⟩

/-- Witness for C2 at concrete makers: a swallowing handler's fallback
becomes the result of `exec`; a response-validation failure under the
default handler re-raises; a transport error and a success pass through. -/
theorem exec_dispatches_validation_errors_witness :
    (({ validatedRequestMaker "h" with
        querySchema := some rejectSchema,
        requestValidationErrorHandler :=
          fun _ => ([], .ok (.str "fallback")) }).exec
      (fun _ => .ok ⟨.null⟩)).result = .ok (.str "fallback")
    ∧ (({ validatedRequestMaker "h" with
        responseSchema := some rejectSchema }).exec
      (fun _ => .ok ⟨.null⟩)).result
        = .error (.responseValidation ⟨⟨[.str "invalid"]⟩,
            ⟨[("url", .str "h"), ("params", .undefined), ("data", .undefined)],
              .null⟩⟩)
    ∧ ((validatedRequestMaker "h").exec
      (fun _ => .error (.str "boom"))).result = .error (.other (.str "boom"))
    ∧ ((validatedRequestMaker "h").exec
      (fun _ => .ok ⟨.null⟩)).result = .ok .null :=
  ⟨(exec_dispatches_validation_errors.1
      { validatedRequestMaker "h" with
        querySchema := some rejectSchema,
        requestValidationErrorHandler :=
          fun _ => ([], .ok (.str "fallback")) }
      (fun _ => .ok ⟨.null⟩)
      ⟨⟨[.str "invalid"]⟩, ⟨[("url", .str "h")], .undefined⟩⟩ rfl).1,
    (exec_dispatches_validation_errors.2.1
      { validatedRequestMaker "h" with responseSchema := some rejectSchema }
      (fun _ => .ok ⟨.null⟩)
      ⟨⟨[.str "invalid"]⟩,
        ⟨[("url", .str "h"), ("params", .undefined), ("data", .undefined)],
          .null⟩⟩ rfl).1,
    exec_dispatches_validation_errors.2.2.1 (validatedRequestMaker "h")
      (fun _ => .error (.str "boom")) (.str "boom") rfl,
    exec_dispatches_validation_errors.2.2.2.1 (validatedRequestMaker "h")
      (fun _ => .ok ⟨.null⟩) .null rfl⟩

end Zoxios

namespace Zoxios

/-- Function `validateRequestItem` only ever throws a `RequestValidationError`, built
from a present schema's parse failure on the given item. -/
theorem validateRequestItem_error (opts : JsObj) (item : JsVal)
    (schema : Option ZodSchema) (e : JsError)
    (h : validateRequestItem opts item schema = .error e) :
    ∃ s ze, schema = some s ∧ s.safeParse item = .failure ze ∧
      e = .requestValidation ⟨ze, ⟨opts, item⟩⟩ := by
  cases schema with
  | none => simp [validateRequestItem] at h
  | some s =>
    cases hp : s.safeParse item with
    | success d => simp [validateRequestItem, hp] at h
    | failure ze =>
      simp only [validateRequestItem, hp, Except.error.injEq] at h
      exact ⟨s, ze, rfl, hp, h.symm⟩

/-- C1: query validation precedes body validation, both precede the
transport call, and response validation follows it — if the query schema
rejects the final params the raised error is the query-validation error
(even when the body value is also invalid) and no transport call is ever
recorded; and a response-validation error can only arise once exactly one
transport call has happened. -/
theorem query_validation_first_transport_last :
    (∀ (store : Store) (ref : Nat) (setter : Option AsyncOptionsSetterMethod)
      (qs : ZodSchema) (bs rs : Option ZodSchema) (transport : Transport)
      (ze : ZodError),
      qs.safeParse (((store.get ref).merge (asyncOptionsOf setter)).getD
        "params") = .failure ze →
        (execRequest store ref setter ⟨some qs, bs, rs⟩ transport).result
          = .error (.requestValidation ⟨ze,
              ⟨(store.get ref).merge (asyncOptionsOf setter),
                ((store.get ref).merge (asyncOptionsOf setter)).getD
                  "params"⟩⟩)
        ∧ (execRequest store ref setter ⟨some qs, bs, rs⟩
            transport).events.filter Event.isTransportCall = [])
    ∧ (∀ (store : Store) (ref : Nat) (setter : Option AsyncOptionsSetterMethod)
      (schemas : Schemas) (transport : Transport)
      (e : ResponseValidationError),
      (execRequest store ref setter schemas transport).result
          = .error (.responseValidation e) →
        ((execRequest store ref setter schemas
          transport).events.filter Event.isTransportCall).length = 1) := by
  constructor
  · intro store ref setter qs bs rs transport ze h
    have hv : validateRequestItem ((store.get ref).merge (asyncOptionsOf setter))
        (((store.get ref).merge (asyncOptionsOf setter)).getD "params")
        (some qs)
        = .error (.requestValidation ⟨ze,
            ⟨(store.get ref).merge (asyncOptionsOf setter),
              ((store.get ref).merge (asyncOptionsOf setter)).getD
                "params"⟩⟩) := by
      simp [validateRequestItem, h]
    rw [execRequest_of_query_error store ref setter ⟨some qs, bs, rs⟩
      transport _ hv]
    refine ⟨rfl, ?_⟩
    cases setter <;> rfl
  · intro store ref setter schemas transport e h
    cases hq : validateRequestItem
        ((store.get ref).merge (asyncOptionsOf setter))
        (((store.get ref).merge (asyncOptionsOf setter)).getD "params")
        schemas.query with
    | error eq =>
      rw [execRequest_of_query_error store ref setter schemas transport _ hq]
        at h ⊢
      obtain ⟨s, ze, -, -, he⟩ := validateRequestItem_error _ _ _ _ hq
      simp [he] at h
    | ok params =>
      cases hb : validateRequestItem
          (((store.get ref).merge (asyncOptionsOf setter)).set "params" params)
          ((((store.get ref).merge (asyncOptionsOf setter)).set "params"
            params).getD "data")
          schemas.body with
      | error eb =>
        rw [execRequest_of_body_error store ref setter schemas transport
          params _ hq hb] at h ⊢
        obtain ⟨s, ze, -, -, he⟩ := validateRequestItem_error _ _ _ _ hb
        simp [he] at h
      | ok bdata =>
        rw [execRequest_of_request_ok store ref setter schemas transport
          params bdata hq hb]
        cases setter <;> rfl

end Zoxios

namespace Zoxios

/-- Witness for C1: with both query and body schemas rejecting, the raised
error is the query one and no transport call is recorded; with a rejecting
response schema, the response error comes with exactly one transport
call. -/
theorem query_validation_first_transport_last_witness :
    ((execRequest ⟨[[("url", .str "h")]]⟩ 0 none
        ⟨some rejectSchema, some rejectSchema, none⟩
        (fun _ => .ok ⟨.null⟩)).result
      = .error (.requestValidation ⟨⟨[.str "invalid"]⟩,
          ⟨[("url", .str "h")], .undefined⟩⟩)
      ∧ (execRequest ⟨[[("url", .str "h")]]⟩ 0 none
          ⟨some rejectSchema, some rejectSchema, none⟩
          (fun _ => .ok ⟨.null⟩)).events.filter Event.isTransportCall = [])
    ∧ ((execRequest ⟨[[("url", .str "h")]]⟩ 0 none
        ⟨none, none, some rejectSchema⟩
        (fun _ => .ok ⟨.null⟩)).events.filter
          Event.isTransportCall).length = 1 :=
  ⟨query_validation_first_transport_last.1 ⟨[[("url", .str "h")]]⟩ 0 none
      rejectSchema (some rejectSchema) none (fun _ => .ok ⟨.null⟩)
      ⟨[.str "invalid"]⟩ rfl,
    query_validation_first_transport_last.2 ⟨[[("url", .str "h")]]⟩ 0 none
      ⟨none, none, some rejectSchema⟩ (fun _ => .ok ⟨.null⟩)
      ⟨⟨[.str "invalid"]⟩,
        ⟨[("url", .str "h"), ("params", .undefined), ("data", .undefined)],
          .null⟩⟩ rfl⟩

end Zoxios

namespace Zoxios

/-- C5: a request-validation failure raises an error carrying the schema
engine's issue list, the finalized request options at the moment of failure,
and the specific rejected value as `metadata.request`; a response-validation
failure carries the raw unvalidated response as `metadata.response`; in
particular, with a body schema requiring a numeric `age` and body
`{ age: 'x' }`, `exec` raises a `RequestValidationError` whose
`metadata.request` is `{ age: 'x' }` and the transport is never called. -/
theorem validation_errors_carry_metadata :
    (∀ (opts : JsObj) (v : JsVal) (s : ZodSchema) (ze : ZodError),
      s.safeParse v = .failure ze →
        validateRequestItem opts v (some s)
          = .error (.requestValidation ⟨ze, ⟨opts, v⟩⟩))
    ∧ (∀ (opts : JsObj) (v : JsVal) (s : ZodSchema) (ze : ZodError),
      s.safeParse v = .failure ze →
        handleValidatedResponse opts v (some s)
          = .error (.responseValidation ⟨ze, ⟨opts, v⟩⟩))
    ∧ (∀ transport : Transport,
      ((({ validatedRequestMaker "http://h" with
            bodySchema := some ageNumberSchema }).body
          (.obj [("age", .str "x")])).exec transport).result
        = .error (.requestValidation
            ⟨⟨[.str "Expected number at age"]⟩,
              ⟨[("url", .str "http://h"), ("data", .obj [("age", .str "x")]),
                  ("params", .undefined)],
                .obj [("age", .str "x")]⟩⟩)
      ∧ ((({ validatedRequestMaker "http://h" with
            bodySchema := some ageNumberSchema }).body
          (.obj [("age", .str "x")])).exec transport).events.filter
            Event.isTransportCall = []) := by
  refine ⟨?_, ?_, ?_⟩
  · intro opts v s ze h
    simp [validateRequestItem, h]
  · intro opts v s ze h
    simp [handleValidatedResponse, h]
  · intro transport
    have hinner : ((({ validatedRequestMaker "http://h" with
          bodySchema := some ageNumberSchema }).body
        (.obj [("age", .str "x")])).execInner transport).result
        = .error (.requestValidation
            ⟨⟨[.str "Expected number at age"]⟩,
              ⟨[("url", .str "http://h"), ("data", .obj [("age", .str "x")]),
                  ("params", .undefined)],
                .obj [("age", .str "x")]⟩⟩) := by
      show (execRequest
        ⟨[[("url", .str "http://h"), ("data", .obj [("age", .str "x")])]]⟩ 0
        none ⟨none, some ageNumberSchema, none⟩ transport).result = _
      rw [execRequest_of_body_error
        ⟨[[("url", .str "http://h"), ("data", .obj [("age", .str "x")])]]⟩ 0
        none ⟨none, some ageNumberSchema, none⟩ transport .undefined _ rfl rfl]
      rfl
    refine ⟨(exec_of_requestValidation _ _ _ hinner).1, ?_⟩
    rw [exec_events]
    show ((execRequest
      ⟨[[("url", .str "http://h"), ("data", .obj [("age", .str "x")])]]⟩ 0
      none ⟨none, some ageNumberSchema, none⟩ transport).events).filter
        Event.isTransportCall = []
    rw [execRequest_of_body_error
      ⟨[[("url", .str "http://h"), ("data", .obj [("age", .str "x")])]]⟩ 0
      none ⟨none, some ageNumberSchema, none⟩ transport .undefined _ rfl rfl]
    rfl

/-- Witness for C5's two general conjuncts at concrete inputs. -/
theorem validation_errors_carry_metadata_witness :
    validateRequestItem [("url", .null)] (.num 3) (some rejectSchema)
      = .error (.requestValidation ⟨⟨[.str "invalid"]⟩,
          ⟨[("url", .null)], .num 3⟩⟩)
    ∧ handleValidatedResponse [("url", .null)] (.num 3) (some rejectSchema)
      = .error (.responseValidation ⟨⟨[.str "invalid"]⟩,
          ⟨[("url", .null)], .num 3⟩⟩) :=
  ⟨validation_errors_carry_metadata.1 [("url", .null)] (.num 3) rejectSchema
      ⟨[.str "invalid"]⟩ rfl,
    validation_errors_carry_metadata.2.1 [("url", .null)] (.num 3) rejectSchema
      ⟨[.str "invalid"]⟩ rfl⟩

end Zoxios

namespace Zoxios

/-- C4: the finalized options are the shallow merge of the static Request
Description with the async setter's result, async keys taking precedence on
every overlapping top-level key, and the merge happens before query/body
validation — so whatever options object the transport receives agrees with
the async result on every key the async result defines (passed through the
respective validation for `params` and `data`; verbatim for every other
key, and verbatim for `params`/`data` too when the matching schema slot is
absent). -/
theorem async_options_take_precedence :
    (∀ (base asyncOpts : JsObj) (k : String) (v : JsVal),
      asyncOpts.get? k = some v → (base.merge asyncOpts).get? k = some v)
    ∧ (∀ (store : Store) (ref : Nat) (f : AsyncOptionsSetterMethod)
      (schemas : Schemas) (transport : Transport) (opts : JsObj),
      Event.transportCalled opts ∈
          (execRequest store ref (some f) schemas transport).events →
        (∀ (k : String) (v : JsVal), k ≠ "params" → k ≠ "data" →
          (f ()).get? k = some v → opts.get? k = some v)
        ∧ (schemas.query = none → ∀ v : JsVal,
          (f ()).get? "params" = some v → opts.get? "params" = some v)
        ∧ (schemas.body = none → ∀ v : JsVal,
          (f ()).get? "data" = some v → opts.get? "data" = some v)) := by
  constructor
  · intro base asyncOpts k v hv
    rw [JsObj.get?_merge]
    simp [hv]
  · intro store ref f schemas transport opts hmem
    cases hq : validateRequestItem
        ((store.get ref).merge (asyncOptionsOf (some f)))
        (((store.get ref).merge (asyncOptionsOf (some f))).getD "params")
        schemas.query with
    | error e =>
      rw [execRequest_of_query_error store ref (some f) schemas transport e hq]
        at hmem
      simp [asyncEventsOf] at hmem
    | ok params =>
      cases hb : validateRequestItem
          (((store.get ref).merge (asyncOptionsOf (some f))).set "params"
            params)
          ((((store.get ref).merge (asyncOptionsOf (some f))).set "params"
            params).getD "data")
          schemas.body with
      | error e =>
        rw [execRequest_of_body_error store ref (some f) schemas transport
          params e hq hb] at hmem
        simp [asyncEventsOf] at hmem
      | ok bdata =>
        rw [execRequest_of_request_ok store ref (some f) schemas transport
          params bdata hq hb] at hmem
        simp [asyncEventsOf] at hmem
        subst hmem
        refine ⟨?_, ?_, ?_⟩
        · intro k v hk1 hk2 hv
          rw [JsObj.get?_set_ne _ bdata hk2, JsObj.get?_set_ne _ params hk1,
            JsObj.get?_merge]
          simp only [asyncOptionsOf]
          simp [hv]
        · intro hnone v hv
          rw [hnone] at hq
          simp only [validateRequestItem] at hq
          have hfo : ((store.get ref).merge (asyncOptionsOf (some f))).get?
              "params" = some v := by
            rw [JsObj.get?_merge]
            simp only [asyncOptionsOf]
            simp [hv]
          rw [JsObj.get?_set_ne _ bdata (by decide), JsObj.get?_set_self,
            ← Except.ok.inj hq]
          simp [JsObj.getD, hfo]
        · intro hnone v hv
          rw [hnone] at hb
          simp only [validateRequestItem] at hb
          have hfo : ((store.get ref).merge (asyncOptionsOf (some f))).get?
              "data" = some v := by
            rw [JsObj.get?_merge]
            simp only [asyncOptionsOf]
            simp [hv]
          rw [JsObj.get?_set_self, ← Except.ok.inj hb,
            JsObj.getD_set_ne _ params (by decide)]
          simp [JsObj.getD, hfo]

end Zoxios

namespace Zoxios

/-- Witness for C4: a static `headers` value is overridden by the async
setter's `headers`, and that is what the (trivial) transport receives. -/
theorem async_options_take_precedence_witness :
    JsObj.get? (JsObj.merge [("k", .num 1)] [("k", .num 2)]) "k"
      = some (.num 2)
    ∧ JsObj.get?
        [("url", .str "h"), ("headers", .str "Bearer t"), ("params", .undefined),
          ("data", .undefined)] "headers" = some (.str "Bearer t") :=
  ⟨async_options_take_precedence.1 [("k", .num 1)] [("k", .num 2)] "k"
      (.num 2) rfl,
    (async_options_take_precedence.2
        ⟨[[("url", .str "h"), ("headers", .str "static")]]⟩ 0
        (fun _ => [("headers", .str "Bearer t")]) ⟨none, none, none⟩
        (fun _ => .ok ⟨.null⟩)
        [("url", .str "h"), ("headers", .str "Bearer t"), ("params", .undefined),
          ("data", .undefined)]
        (List.Mem.tail _ (List.Mem.head _))).1 "headers" (.str "Bearer t")
      (by decide) (by decide) rfl⟩

end Zoxios

namespace Zoxios

/-- C6: when a schema slot is present and accepts, the normalized output of
its parse — not the raw input — is what flows forward: the transport
receives the normalized `params` and `data` in place of the configured
values, and the execution resolves to the normalized response value produced
by the response schema's parse. -/
theorem normalized_output_flows_forward :
    ∀ (store : Store) (ref : Nat) (setter : Option AsyncOptionsSetterMethod)
      (qs bs rs : ZodSchema) (transport : Transport) (nq nb : JsVal)
      (resp : AxiosResponse) (nr : JsVal),
      qs.safeParse (((store.get ref).merge (asyncOptionsOf setter)).getD
        "params") = .success nq →
      bs.safeParse ((((store.get ref).merge (asyncOptionsOf setter)).set
        "params" nq).getD "data") = .success nb →
      transport ((((store.get ref).merge (asyncOptionsOf setter)).set
        "params" nq).set "data" nb) = .ok resp →
      rs.safeParse resp.data = .success nr →
        (execRequest store ref setter ⟨some qs, some bs, some rs⟩
            transport).events
          = asyncEventsOf setter ++
            [.transportCalled ((((store.get ref).merge
              (asyncOptionsOf setter)).set "params" nq).set "data" nb)]
        ∧ JsObj.get? ((((store.get ref).merge (asyncOptionsOf setter)).set
            "params" nq).set "data" nb) "params" = some nq
        ∧ JsObj.get? ((((store.get ref).merge (asyncOptionsOf setter)).set
            "params" nq).set "data" nb) "data" = some nb
        ∧ (execRequest store ref setter ⟨some qs, some bs, some rs⟩
            transport).result = .ok nr := by
  intro store ref setter qs bs rs transport nq nb resp nr hq hb htr hr
  have hq' : validateRequestItem
      ((store.get ref).merge (asyncOptionsOf setter))
      (((store.get ref).merge (asyncOptionsOf setter)).getD "params")
      (some qs) = .ok nq := by
    simp [validateRequestItem, hq]
  have hb' : validateRequestItem
      (((store.get ref).merge (asyncOptionsOf setter)).set "params" nq)
      ((((store.get ref).merge (asyncOptionsOf setter)).set "params" nq).getD
        "data")
      (some bs) = .ok nb := by
    simp [validateRequestItem, hb]
  rw [execRequest_of_request_ok store ref setter ⟨some qs, some bs, some rs⟩
    transport nq nb hq' hb']
  refine ⟨rfl, ?_, ?_, ?_⟩
  · rw [JsObj.get?_set_ne _ nb (by decide), JsObj.get?_set_self]
  · rw [JsObj.get?_set_self]
  · dsimp only
    rw [htr]
    simp [handleValidatedResponse, hr]

/-- Witness for C6: the query schema strips the extra key of the params, the
body schema strips the extra key of the body, the response schema strips the
extra key of the response — the transport sees the normalized params and
data, and the execution resolves to the normalized response. -/
theorem normalized_output_flows_forward_witness :
    (execRequest ⟨[[("url", .str "h"), ("params", .obj [("q", .num 5), ("z", .num 9)]),
        ("data", .obj [("age", .num 7), ("x", .num 1)])]]⟩ 0 none
      ⟨some qNumberSchema, some ageNumberSchema, some idNumberSchema⟩
      (fun _ => .ok ⟨.obj [("id", .num 1), ("j", .null)]⟩)).events
      = [.transportCalled [("url", .str "h"),
          ("params", .obj [("q", .num 5)]),
          ("data", .obj [("age", .num 7)])]]
    ∧ JsObj.get? [("url", .str "h"), ("params", .obj [("q", .num 5)]),
        ("data", .obj [("age", .num 7)])] "params"
      = some (.obj [("q", .num 5)])
    ∧ JsObj.get? [("url", .str "h"), ("params", .obj [("q", .num 5)]),
        ("data", .obj [("age", .num 7)])] "data"
      = some (.obj [("age", .num 7)])
    ∧ (execRequest ⟨[[("url", .str "h"),
        ("params", .obj [("q", .num 5), ("z", .num 9)]),
        ("data", .obj [("age", .num 7), ("x", .num 1)])]]⟩ 0 none
      ⟨some qNumberSchema, some ageNumberSchema, some idNumberSchema⟩
      (fun _ => .ok ⟨.obj [("id", .num 1), ("j", .null)]⟩)).result
      = .ok (.obj [("id", .num 1)]) :=
  normalized_output_flows_forward
    ⟨[[("url", .str "h"), ("params", .obj [("q", .num 5), ("z", .num 9)]),
        ("data", .obj [("age", .num 7), ("x", .num 1)])]]⟩ 0 none
    qNumberSchema ageNumberSchema idNumberSchema
    (fun _ => .ok ⟨.obj [("id", .num 1), ("j", .null)]⟩)
    (.obj [("q", .num 5)]) (.obj [("age", .num 7)])
    ⟨.obj [("id", .num 1), ("j", .null)]⟩
    (.obj [("id", .num 1)]) rfl rfl rfl rfl

end Zoxios

namespace Zoxios

/-- Whatever path an execution takes, the store after it differs from the
store before it only by the one freshly allocated merged-options object:
every previously allocated object — the base Request Description included —
is untouched. -/
theorem execRequest_store_frame (store : Store) (ref : Nat)
    (setter : Option AsyncOptionsSetterMethod) (schemas : Schemas)
    (transport : Transport) {r : Nat} (h : r < store.objs.length) :
    (execRequest store ref setter schemas transport).store.get r
      = store.get r := by
  cases hq : validateRequestItem
      ((store.get ref).merge (asyncOptionsOf setter))
      (((store.get ref).merge (asyncOptionsOf setter)).getD "params")
      schemas.query with
  | error e =>
    rw [execRequest_of_query_error store ref setter schemas transport e hq]
    exact Store.get_concat_of_lt store.objs _ h
  | ok params =>
    cases hb : validateRequestItem
        (((store.get ref).merge (asyncOptionsOf setter)).set "params" params)
        ((((store.get ref).merge (asyncOptionsOf setter)).set "params"
          params).getD "data")
        schemas.body with
    | error e =>
      rw [execRequest_of_body_error store ref setter schemas transport
        params e hq hb]
      exact Store.get_concat_of_lt store.objs _ h
    | ok bdata =>
      rw [execRequest_of_request_ok store ref setter schemas transport
        params bdata hq hb]
      exact Store.get_concat_of_lt store.objs _ h

/-- Every execution invokes the async option setter exactly once when one is
installed, and never otherwise. -/
theorem execRequest_async_count (store : Store) (ref : Nat)
    (setter : Option AsyncOptionsSetterMethod) (schemas : Schemas)
    (transport : Transport) :
    ((execRequest store ref setter schemas transport).events.filter
        Event.isAsyncSetterCall).length
      = if setter.isSome then 1 else 0 := by
  cases hq : validateRequestItem
      ((store.get ref).merge (asyncOptionsOf setter))
      (((store.get ref).merge (asyncOptionsOf setter)).getD "params")
      schemas.query with
  | error e =>
    rw [execRequest_of_query_error store ref setter schemas transport e hq]
    cases setter <;> rfl
  | ok params =>
    cases hb : validateRequestItem
        (((store.get ref).merge (asyncOptionsOf setter)).set "params" params)
        ((((store.get ref).merge (asyncOptionsOf setter)).set "params"
          params).getD "data")
        schemas.body with
    | error e =>
      rw [execRequest_of_body_error store ref setter schemas transport
        params e hq hb]
      cases setter <;> rfl
    | ok bdata =>
      rw [execRequest_of_request_ok store ref setter schemas transport
        params bdata hq hb]
      cases setter <;> rfl

/-- The outcome and trace of `execRequest` depend on the store only through
the contents of the base Request Description. -/
theorem execRequest_congr (store store' : Store) (ref ref' : Nat)
    (setter : Option AsyncOptionsSetterMethod) (schemas : Schemas)
    (transport : Transport) (h : store.get ref = store'.get ref') :
    (execRequest store ref setter schemas transport).result
      = (execRequest store' ref' setter schemas transport).result
    ∧ (execRequest store ref setter schemas transport).events
      = (execRequest store' ref' setter schemas transport).events := by
  cases hq : validateRequestItem
      ((store.get ref).merge (asyncOptionsOf setter))
      (((store.get ref).merge (asyncOptionsOf setter)).getD "params")
      schemas.query with
  | error e =>
    have hq' := hq
    rw [h] at hq'
    rw [execRequest_of_query_error store ref setter schemas transport e hq,
      execRequest_of_query_error store' ref' setter schemas transport e hq']
    exact ⟨rfl, rfl⟩
  | ok params =>
    cases hb : validateRequestItem
        (((store.get ref).merge (asyncOptionsOf setter)).set "params" params)
        ((((store.get ref).merge (asyncOptionsOf setter)).set "params"
          params).getD "data")
        schemas.body with
    | error e =>
      have hq' := hq
      have hb' := hb
      rw [h] at hq' hb'
      rw [execRequest_of_body_error store ref setter schemas transport
        params e hq hb,
        execRequest_of_body_error store' ref' setter schemas transport
        params e hq' hb']
      exact ⟨rfl, rfl⟩
    | ok bdata =>
      have hq' := hq
      have hb' := hb
      rw [h] at hq' hb'
      rw [execRequest_of_request_ok store ref setter schemas transport
        params bdata hq hb,
        execRequest_of_request_ok store' ref' setter schemas transport
        params bdata hq' hb', h]
      exact ⟨rfl, rfl⟩

/-- Two `exec` outcomes agree whenever the underlying `execRequest` outcomes and
the configured handlers agree. -/
theorem exec_result_eq_of_inner (m m' : ValidatedRequestMaker)
    (transport : Transport)
    (hreq : m.requestValidationErrorHandler = m'.requestValidationErrorHandler)
    (hres : m.responseValidationErrorHandler = m'.responseValidationErrorHandler)
    (h : (m.execInner transport).result = (m'.execInner transport).result) :
    (m.exec transport).result = (m'.exec transport).result := by
  cases hr : (m'.execInner transport).result with
  | ok v =>
    rw [exec_of_ok m transport v (h.trans hr), exec_of_ok m' transport v hr]
  | error e =>
    cases e with
    | requestValidation e =>
      rw [(exec_of_requestValidation m transport e (h.trans hr)).1,
        (exec_of_requestValidation m' transport e hr).1, hreq]
    | responseValidation e =>
      rw [(exec_of_responseValidation m transport e (h.trans hr)).1,
        (exec_of_responseValidation m' transport e hr).1, hres]
    | other v =>
      rw [exec_of_other m transport v (h.trans hr),
        exec_of_other m' transport v hr]

end Zoxios

namespace Zoxios

/-- C8: during an execution the base Request Description is only read, never
mutated — the params/data replacement happens on the per-execution merged
copy, so after `exec` settles (successfully or not) the builder's
accumulated Request Description is unchanged — and each `exec` call
independently re-invokes the async option setter (exactly once per call when
one is installed), a repeated call from the post-execution state behaving
identically. -/
theorem exec_does_not_mutate_description :
    ∀ (m : ValidatedRequestMaker) (transport : Transport), m.WF →
      (m.exec transport).store.get m.baseOptionsRef = m.baseOptions
      ∧ ((m.exec transport).events.filter Event.isAsyncSetterCall).length
          = (if m.asyncOptionsSetterMethod.isSome then 1 else 0)
      ∧ (({ m with store := (m.exec transport).store }
            : ValidatedRequestMaker).exec transport).result
          = (m.exec transport).result
      ∧ ((({ m with store := (m.exec transport).store }
            : ValidatedRequestMaker).exec transport).events.filter
            Event.isAsyncSetterCall).length
          = (if m.asyncOptionsSetterMethod.isSome then 1 else 0) := by
  intro m transport hwf
  have hframe : (m.exec transport).store.get m.baseOptionsRef
      = m.baseOptions := by
    rw [exec_store]
    exact execRequest_store_frame m.store m.baseOptionsRef
      m.asyncOptionsSetterMethod ⟨m.querySchema, m.bodySchema, m.responseSchema⟩
      transport hwf
  refine ⟨hframe, ?_, ?_, ?_⟩
  · rw [exec_events]
    exact execRequest_async_count m.store m.baseOptionsRef
      m.asyncOptionsSetterMethod ⟨m.querySchema, m.bodySchema, m.responseSchema⟩
      transport
  · exact exec_result_eq_of_inner _ m transport rfl rfl
      (execRequest_congr (m.exec transport).store m.store m.baseOptionsRef
        m.baseOptionsRef m.asyncOptionsSetterMethod
        ⟨m.querySchema, m.bodySchema, m.responseSchema⟩ transport hframe).1
  · rw [exec_events]
    exact execRequest_async_count (m.exec transport).store m.baseOptionsRef
      m.asyncOptionsSetterMethod ⟨m.querySchema, m.bodySchema, m.responseSchema⟩
      transport

/-- Witness for C8 at a concrete maker with an installed async setter. -/
theorem exec_does_not_mutate_description_witness :
    (({ validatedRequestMaker "h" with
        asyncOptionsSetterMethod := some (fun _ => [("a", .num 1)]) }
      : ValidatedRequestMaker).exec (fun _ => .ok ⟨.null⟩)).store.get 0
      = [("url", .str "h")]
    ∧ ((({ validatedRequestMaker "h" with
        asyncOptionsSetterMethod := some (fun _ => [("a", .num 1)]) }
      : ValidatedRequestMaker).exec (fun _ => .ok ⟨.null⟩)).events.filter
        Event.isAsyncSetterCall).length = 1
    ∧ (({ ({ validatedRequestMaker "h" with
          asyncOptionsSetterMethod := some (fun _ => [("a", .num 1)]) }
          : ValidatedRequestMaker) with
        store := (({ validatedRequestMaker "h" with
          asyncOptionsSetterMethod := some (fun _ => [("a", .num 1)]) }
          : ValidatedRequestMaker).exec (fun _ => .ok ⟨.null⟩)).store }
      : ValidatedRequestMaker).exec (fun _ => .ok ⟨.null⟩)).result
      = (({ validatedRequestMaker "h" with
          asyncOptionsSetterMethod := some (fun _ => [("a", .num 1)]) }
        : ValidatedRequestMaker).exec (fun _ => .ok ⟨.null⟩)).result
    ∧ ((({ ({ validatedRequestMaker "h" with
          asyncOptionsSetterMethod := some (fun _ => [("a", .num 1)]) }
          : ValidatedRequestMaker) with
        store := (({ validatedRequestMaker "h" with
          asyncOptionsSetterMethod := some (fun _ => [("a", .num 1)]) }
          : ValidatedRequestMaker).exec (fun _ => .ok ⟨.null⟩)).store }
      : ValidatedRequestMaker).exec (fun _ => .ok ⟨.null⟩)).events.filter
        Event.isAsyncSetterCall).length = 1 :=
  exec_does_not_mutate_description
    { validatedRequestMaker "h" with
      asyncOptionsSetterMethod := some (fun _ => [("a", .num 1)]) }
    (fun _ => .ok ⟨.null⟩) (by decide)

end Zoxios

namespace Zoxios

/-- C10: when query validation succeeds and body validation then fails, the
`requestOptions` snapshot inside the raised `RequestValidationError` already
holds the normalized params (the query parse output) — while when query
validation itself fails, the snapshot still holds the raw params. -/
theorem error_snapshot_reflects_validation_progress :
    (∀ (store : Store) (ref : Nat) (setter : Option AsyncOptionsSetterMethod)
      (qs bs : ZodSchema) (rs : Option ZodSchema) (transport : Transport)
      (nq : JsVal) (ze : ZodError),
      qs.safeParse (((store.get ref).merge (asyncOptionsOf setter)).getD
        "params") = .success nq →
      bs.safeParse ((((store.get ref).merge (asyncOptionsOf setter)).set
        "params" nq).getD "data") = .failure ze →
        (execRequest store ref setter ⟨some qs, some bs, rs⟩
            transport).result
          = .error (.requestValidation ⟨ze,
              ⟨((store.get ref).merge (asyncOptionsOf setter)).set "params"
                  nq,
                (((store.get ref).merge (asyncOptionsOf setter)).set "params"
                  nq).getD "data"⟩⟩)
        ∧ JsObj.get? (((store.get ref).merge (asyncOptionsOf setter)).set
            "params" nq) "params" = some nq)
    ∧ (∀ (store : Store) (ref : Nat) (setter : Option AsyncOptionsSetterMethod)
      (qs : ZodSchema) (bs rs : Option ZodSchema) (transport : Transport)
      (ze : ZodError),
      qs.safeParse (((store.get ref).merge (asyncOptionsOf setter)).getD
        "params") = .failure ze →
        (execRequest store ref setter ⟨some qs, bs, rs⟩ transport).result
          = .error (.requestValidation ⟨ze,
              ⟨(store.get ref).merge (asyncOptionsOf setter),
                ((store.get ref).merge (asyncOptionsOf setter)).getD
                  "params"⟩⟩)) := by
  constructor
  · intro store ref setter qs bs rs transport nq ze hq hb
    have hq' : validateRequestItem
        ((store.get ref).merge (asyncOptionsOf setter))
        (((store.get ref).merge (asyncOptionsOf setter)).getD "params")
        (some qs) = .ok nq := by
      simp [validateRequestItem, hq]
    have hb' : validateRequestItem
        (((store.get ref).merge (asyncOptionsOf setter)).set "params" nq)
        ((((store.get ref).merge (asyncOptionsOf setter)).set "params"
          nq).getD "data")
        (some bs)
        = .error (.requestValidation ⟨ze,
            ⟨((store.get ref).merge (asyncOptionsOf setter)).set "params" nq,
              (((store.get ref).merge (asyncOptionsOf setter)).set "params"
                nq).getD "data"⟩⟩) := by
      simp [validateRequestItem, hb]
    rw [execRequest_of_body_error store ref setter ⟨some qs, some bs, rs⟩
      transport nq _ hq' hb']
    exact ⟨rfl, JsObj.get?_set_self _ _ _⟩
  · intro store ref setter qs bs rs transport ze h
    have hv : validateRequestItem
        ((store.get ref).merge (asyncOptionsOf setter))
        (((store.get ref).merge (asyncOptionsOf setter)).getD "params")
        (some qs)
        = .error (.requestValidation ⟨ze,
            ⟨(store.get ref).merge (asyncOptionsOf setter),
              ((store.get ref).merge (asyncOptionsOf setter)).getD
                "params"⟩⟩) := by
      simp [validateRequestItem, h]
    rw [execRequest_of_query_error store ref setter ⟨some qs, bs, rs⟩
      transport _ hv]

/-- Witness for C10: with params `{ q: 5, z: 9 }` and a normalizing query
schema, a body failure carries the normalized `{ q: 5 }` in its options
snapshot; a query failure carries the raw value. -/
theorem error_snapshot_reflects_validation_progress_witness :
    ((execRequest ⟨[[("url", .str "h"),
        ("params", .obj [("q", .num 5), ("z", .num 9)])]]⟩ 0 none
      ⟨some qNumberSchema, some rejectSchema, none⟩
      (fun _ => .ok ⟨.null⟩)).result
      = .error (.requestValidation ⟨⟨[.str "invalid"]⟩,
          ⟨[("url", .str "h"), ("params", .obj [("q", .num 5)])],
            .undefined⟩⟩)
      ∧ JsObj.get? [("url", .str "h"), ("params", .obj [("q", .num 5)])]
          "params" = some (.obj [("q", .num 5)]))
    ∧ (execRequest ⟨[[("url", .str "h"),
        ("params", .obj [("q", .num 5), ("z", .num 9)])]]⟩ 0 none
      ⟨some rejectSchema, none, none⟩
      (fun _ => .ok ⟨.null⟩)).result
      = .error (.requestValidation ⟨⟨[.str "invalid"]⟩,
          ⟨[("url", .str "h"), ("params", .obj [("q", .num 5), ("z", .num 9)])],
            .obj [("q", .num 5), ("z", .num 9)]⟩⟩) :=
  ⟨error_snapshot_reflects_validation_progress.1
      ⟨[[("url", .str "h"), ("params", .obj [("q", .num 5), ("z", .num 9)])]]⟩
      0 none qNumberSchema rejectSchema none (fun _ => .ok ⟨.null⟩)
      (.obj [("q", .num 5)]) ⟨[.str "invalid"]⟩ rfl rfl,
    error_snapshot_reflects_validation_progress.2
      ⟨[[("url", .str "h"), ("params", .obj [("q", .num 5), ("z", .num 9)])]]⟩
      0 none rejectSchema none none (fun _ => .ok ⟨.null⟩)
      ⟨[.str "invalid"]⟩ rfl⟩

end Zoxios
